import Mathlib

/-!
Verification development for the `captcha` repository (`src/setup.py`).

The script is, in full (comments elided):

  from ultralytics import YOLO
  model = YOLO("yolo26n.pt")        -- line 7
  model.export(format="onnx")       -- line 10

We embed it shallowly: the external library (`ultralytics`) is an abstract
structure of two routines, each of which may raise an exception (modelled
with `Except`) and may change an ambient world/filesystem state (threaded
explicitly).  The script itself is the function `runScript`, translated
statement by statement from the source; it records the sequence of library
calls it performs (with the exact arguments supplied) in a trace, the lines
it prints on standard output, and the final world.
-/

namespace Captcha

/-- Hardcoded checkpoint filename string literal, setup.py line 7. -/
def checkpointFile : String := "yolo26n.pt"

/-- Hardcoded target-format string literal, setup.py line 10 (the value of
the single keyword argument of the export call). -/
def exportFormat : String := "onnx"

/-- Abstract model of the external library.  `load` embeds the `YOLO(...)`
constructor: from a checkpoint filename and a world it returns either a
model object or an exception, together with the possibly-changed world.
`exportModel` embeds the `.export(format=...)` method: from a model object
and a format identifier it returns either an artifact value (in Python, the
path of the file it wrote) or an exception, together with the world.  Both
routines are opaque to the repository. -/
structure UltralyticsLib (Model Err Artifact World : Type) where
  load : String → World → Except Err Model × World
  exportModel : Model → String → World → Except Err Artifact × World

/-- One observable library call made by the script, carrying every argument
the script supplies to that call (and no others). -/
inductive Event (Model : Type) where
  | loadCall (filename : String)
  | exportCall (model : Model) (format : String)
  deriving DecidableEq

/-- The observable result of one run of the script: whether it terminated
normally or with a propagated exception (`Unit` on success, because the
script binds no value of its own), the final world, the sequence of library
calls performed, and the lines printed on standard output. -/
structure RunResult (Model Err World : Type) where
  outcome : Except Err Unit
  finalWorld : World
  trace : List (Event Model)
  stdout : List String

/-- Embedding of line 10 of `src/setup.py`, `model.export(format="onnx")`,
executed after line 7 bound `model`: call `exportModel` on that object with
the hardcoded format, discarding the returned value; an exception
terminates the run.  Nothing is printed. -/
def runExportStatement {Model Err Artifact World : Type}
    (lib : UltralyticsLib Model Err Artifact World)
    (model : Model) (w1 : World) : RunResult Model Err World :=
  match lib.exportModel model exportFormat w1 with
  | (.error e, w2) =>
      { outcome := .error e, finalWorld := w2,
        trace := [.loadCall checkpointFile,
                  .exportCall model exportFormat], stdout := [] }
  | (.ok _, w2) =>
      { outcome := .ok (), finalWorld := w2,
        trace := [.loadCall checkpointFile,
                  .exportCall model exportFormat], stdout := [] }

/-- Statement-by-statement embedding of `src/setup.py`.
Line 7, `model = YOLO("yolo26n.pt")`: call `load` on the hardcoded
filename, binding the result to `model`; an exception terminates the run.
Then line 10 runs (`runExportStatement`). -/
def runScript {Model Err Artifact World : Type}
    (lib : UltralyticsLib Model Err Artifact World) (w : World) :
    RunResult Model Err World :=
  match lib.load checkpointFile w with
  | (.error e, w1) =>
      { outcome := .error e, finalWorld := w1,
        trace := [.loadCall checkpointFile], stdout := [] }
  | (.ok model, w1) => runExportStatement lib model w1

/-- The behaviour demanded by the spec, written from the spec's words
alone: the sequential composition of exactly two external-library calls —
first `load` on the hardcoded checkpoint filename, then `exportModel` on
the load result passed unchanged, with a single format argument — with no
branching and no data transformation authored by the repository (failure of
the first call short-circuits the composition, as exception propagation
does). -/
def specTwoCallComposition {Model Err Artifact World : Type}
    (lib : UltralyticsLib Model Err Artifact World) (w : World) :
    RunResult Model Err World :=
  match lib.load checkpointFile w with
  | (.error e, w1) =>
      { outcome := .error e, finalWorld := w1,
        trace := [.loadCall checkpointFile], stdout := [] }
  | (.ok m, w1) =>
      { outcome := (lib.exportModel m exportFormat w1).1.map (fun _ => ()),
        finalWorld := (lib.exportModel m exportFormat w1).2,
        trace := [.loadCall checkpointFile, .exportCall m exportFormat],
        stdout := [] }

/-- The world effect of the two library calls alone, with no contribution
from the script: the world after `load`, and after `exportModel` when
`load` succeeded. -/
def libWorldEffect {Model Err Artifact World : Type}
    (lib : UltralyticsLib Model Err Artifact World) (w : World) : World :=
  match lib.load checkpointFile w with
  | (.error _, w1) => w1
  | (.ok m, w1) => (lib.exportModel m exportFormat w1).2

/-- The script as invoked as an operating-system process.  `setup.py`
mentions neither `sys.argv` nor `os.environ`, so its embedding as a
function of the command line and the environment is constant in both. -/
def runScriptProcess {Model Err Artifact World : Type}
    (lib : UltralyticsLib Model Err Artifact World)
    (_argv : List String) (_env : List (String × String)) (w : World) :
    RunResult Model Err World :=
  runScript lib w

/-- The script as a function of ambient sources of nondeterminism.
`setup.py` reads no random source and no clock, so its embedding as a
function of a random seed and a clock reading is constant in both. -/
def runScriptAmbient {Model Err Artifact World : Type}
    (lib : UltralyticsLib Model Err Artifact World)
    (_randomSeed : Nat) (_clock : Nat) (w : World) :
    RunResult Model Err World :=
  runScript lib w

/-- Replace the artifact value returned by the library's export routine by
an arbitrary function of it, leaving everything else of the library
unchanged. -/
def mapArtifact {Model Err Artifact Artifact2 World : Type}
    (f : Artifact → Artifact2)
    (lib : UltralyticsLib Model Err Artifact World) :
    UltralyticsLib Model Err Artifact2 World :=
  { load := lib.load,
    exportModel := fun m s w =>
      match lib.exportModel m s w with
      | (.error e, w1) => (.error e, w1)
      | (.ok a, w1) => (.ok (f a), w1) }

/-- Concrete filesystem model for the frame and artifact claims: a list of
(filename, byte content) pairs. -/
abbrev FS : Type := List (String × List Nat)

/-- Look up the content of a file by name. -/
def FS.lookupFile (fs : FS) (name : String) : Option (List Nat) :=
  List.lookup name fs

/-- Concrete library over `Nat` worlds in which both calls succeed; used to
instantiate hypotheses of the theorems below at a concrete input. -/
def witLib : UltralyticsLib Nat Nat Nat Nat :=
  { load := fun _ w => (.ok 1, w),
    exportModel := fun _ _ w => (.ok 5, w + 1) }

/-- Concrete library in which the load call raises exception `7`. -/
def witLibLoadFail : UltralyticsLib Nat Nat Nat Nat :=
  { load := fun _ w => (.error 7, w),
    exportModel := fun _ _ w => (.ok 5, w) }

/-- Concrete library over the filesystem model whose export routine writes
a single non-empty artifact file. -/
def witLibFS : UltralyticsLib Nat Nat Nat FS :=
  { load := fun _ w => (.ok 0, w),
    exportModel := fun _ _ _ => (.ok 0, [("model.onnx", [1, 2])]) }

/-- Concrete library over the filesystem model whose routines leave the
filesystem unchanged. -/
def witLibPure : UltralyticsLib Nat Nat Nat FS :=
  { load := fun _ w => (.ok 0, w),
    exportModel := fun _ _ w => (.ok 0, w) }

/-! Characterisation lemmas: the value of the run on each outcome of the
two library calls.  These are shared by the claim theorems below. -/

/-- When the load call raises, the run stops there with that exception. -/
theorem runScript_of_load_error {Model Err Artifact World : Type}
    (lib : UltralyticsLib Model Err Artifact World) (w : World)
    {e : Err} {w1 : World}
    (h : lib.load checkpointFile w = (.error e, w1)) :
    runScript lib w =
      { outcome := .error e, finalWorld := w1,
        trace := [.loadCall checkpointFile], stdout := [] } := by
  unfold runScript
  rw [h]

/-- When the load call returns a model, the run continues with line 10 on
that model. -/
theorem runScript_of_load_ok {Model Err Artifact World : Type}
    (lib : UltralyticsLib Model Err Artifact World) (w : World)
    {m : Model} {w1 : World}
    (h : lib.load checkpointFile w = (.ok m, w1)) :
    runScript lib w = runExportStatement lib m w1 := by
  unfold runScript
  rw [h]

/-- When the export call raises, the run terminates with that exception. -/
theorem runExportStatement_of_error {Model Err Artifact World : Type}
    (lib : UltralyticsLib Model Err Artifact World)
    (m : Model) (w1 : World) {e : Err} {w2 : World}
    (h : lib.exportModel m exportFormat w1 = (.error e, w2)) :
    runExportStatement lib m w1 =
      { outcome := .error e, finalWorld := w2,
        trace := [.loadCall checkpointFile, .exportCall m exportFormat],
        stdout := [] } := by
  unfold runExportStatement
  rw [h]

/-- When the export call succeeds, the run terminates normally, its
returned value discarded. -/
theorem runExportStatement_of_ok {Model Err Artifact World : Type}
    (lib : UltralyticsLib Model Err Artifact World)
    (m : Model) (w1 : World) {a : Artifact} {w2 : World}
    (h : lib.exportModel m exportFormat w1 = (.ok a, w2)) :
    runExportStatement lib m w1 =
      { outcome := .ok (), finalWorld := w2,
        trace := [.loadCall checkpointFile, .exportCall m exportFormat],
        stdout := [] } := by
  unfold runExportStatement
  rw [h]

/-- Value of the spec-side composition when the load call raises. -/
theorem spec_of_load_error {Model Err Artifact World : Type}
    (lib : UltralyticsLib Model Err Artifact World) (w : World)
    {e : Err} {w1 : World}
    (h : lib.load checkpointFile w = (.error e, w1)) :
    specTwoCallComposition lib w =
      { outcome := .error e, finalWorld := w1,
        trace := [.loadCall checkpointFile], stdout := [] } := by
  unfold specTwoCallComposition
  rw [h]

/-- Value of the spec-side composition when the load call returns a
model. -/
theorem spec_of_load_ok {Model Err Artifact World : Type}
    (lib : UltralyticsLib Model Err Artifact World) (w : World)
    {m : Model} {w1 : World}
    (h : lib.load checkpointFile w = (.ok m, w1)) :
    specTwoCallComposition lib w =
      { outcome := (lib.exportModel m exportFormat w1).1.map (fun _ => ()),
        finalWorld := (lib.exportModel m exportFormat w1).2,
        trace := [.loadCall checkpointFile, .exportCall m exportFormat],
        stdout := [] } := by
  unfold specTwoCallComposition
  rw [h]

/-- C1: for every library and every initial world, the behaviour of the
script equals the sequential composition of exactly two external-library
calls — `load` applied to the hardcoded checkpoint filename, then
`exportModel` applied to the unchanged load result with a single format
argument — with no branching, no intermediate state and no data
transformation authored by this repository. -/
theorem runScript_eq_specTwoCallComposition {Model Err Artifact World : Type}
    (lib : UltralyticsLib Model Err Artifact World) (w : World) :
    runScript lib w = specTwoCallComposition lib w := by
  cases h1 : lib.load checkpointFile w with
  | mk r1 w1 =>
    cases r1 with
    | error e =>
      rw [runScript_of_load_error lib w h1, spec_of_load_error lib w h1]
    | ok m =>
      rw [runScript_of_load_ok lib w h1, spec_of_load_ok lib w h1]
      unfold runExportStatement
      cases h2 : lib.exportModel m exportFormat w1 with
      | mk r2 w2 => cases r2 <;> rfl

/-- C2: an exception from either library call propagates unmodified to the
process boundary and terminates the script.  When `load` raises `e` the
run's outcome is exactly `.error e` and the trace shows the export call was
never reached; when `load` succeeds and `exportModel` raises `e` the
outcome is exactly `.error e`.  No recovery, retry or error translation
takes place. -/
theorem runScript_error_propagation {Model Err Artifact World : Type}
    (lib : UltralyticsLib Model Err Artifact World) (w : World) :
    (∀ e w1, lib.load checkpointFile w = (.error e, w1) →
      (runScript lib w).outcome = .error e ∧
      (runScript lib w).finalWorld = w1 ∧
      (runScript lib w).trace = [Event.loadCall checkpointFile]) ∧
    (∀ m w1 e w2, lib.load checkpointFile w = (.ok m, w1) →
      lib.exportModel m exportFormat w1 = (.error e, w2) →
      (runScript lib w).outcome = .error e ∧
      (runScript lib w).finalWorld = w2) := by
  refine ⟨fun e w1 h => ?_, fun m w1 e w2 h1 h2 => ?_⟩
  · rw [runScript_of_load_error lib w h]
    exact ⟨rfl, rfl, rfl⟩
  · rw [runScript_of_load_ok lib w h1, runExportStatement_of_error lib m w1 h2]
    exact ⟨rfl, rfl⟩

/-- C2 witness: with a concrete library whose load call raises exception 7
on world 0, the run propagates exactly that exception and never reaches the
export call. -/
theorem runScript_error_propagation_witness :
    (runScript witLibLoadFail 0).outcome = .error 7 ∧
    (runScript witLibLoadFail 0).finalWorld = 0 ∧
    (runScript witLibLoadFail 0).trace = [Event.loadCall checkpointFile] :=
  (runScript_error_propagation witLibLoadFail 0).1 7 0 rfl

/-- C3: assuming the external export routine's own postcondition — every
successful export leaves a non-empty file in the expected format in the
resulting filesystem — a run in which the hardcoded checkpoint loads
successfully and the export call completes terminates normally with such a
non-empty artifact present on disk. -/
theorem runScript_produces_artifact {Model Err Artifact : Type}
    (lib : UltralyticsLib Model Err Artifact FS)
    (Expected : List Nat → Prop) (w : FS) (m : Model) (w1 : FS)
    (a : Artifact) (w2 : FS)
    (hpost : ∀ m' wIn a' wOut,
      lib.exportModel m' exportFormat wIn = (.ok a', wOut) →
      ∃ name content, FS.lookupFile wOut name = some content ∧
        content ≠ [] ∧ Expected content)
    (hload : lib.load checkpointFile w = (.ok m, w1))
    (hexp : lib.exportModel m exportFormat w1 = (.ok a, w2)) :
    (runScript lib w).outcome = .ok () ∧
    ∃ name content,
      FS.lookupFile (runScript lib w).finalWorld name = some content ∧
      content ≠ [] ∧ Expected content := by
  rw [runScript_of_load_ok lib w hload, runExportStatement_of_ok lib m w1 hexp]
  exact ⟨rfl, hpost m w1 a w2 hexp⟩

/-- C3 witness: with a concrete library over the filesystem model whose
export routine writes the non-empty file `model.onnx`, the run from the
empty filesystem ends normally with that artifact present. -/
theorem runScript_produces_artifact_witness :
    (runScript witLibFS []).outcome = .ok () ∧
    ∃ name content,
      FS.lookupFile (runScript witLibFS []).finalWorld name = some content ∧
      content ≠ [] ∧ content = [1, 2] :=
  runScript_produces_artifact witLibFS (fun c => c = [1, 2]) [] 0 [] 0
    [("model.onnx", [1, 2])]
    (by
      intro m' wIn a' wOut h
      have h2 : ([("model.onnx", [1, 2])] : FS) = wOut := congrArg Prod.snd h
      refine ⟨"model.onnx", [1, 2], ?_, by decide, rfl⟩
      rw [← h2]
      decide)
    rfl rfl

/-- C4: noninterference over process inputs the script does not read: two
runs that differ only in command-line arguments or environment variables
are identical — the same library-call sequence with the same arguments and
the same result. -/
theorem runScriptProcess_noninterference {Model Err Artifact World : Type}
    (lib : UltralyticsLib Model Err Artifact World)
    (argv1 : List String) (env1 : List (String × String))
    (argv2 : List String) (env2 : List (String × String)) (w : World) :
    runScriptProcess lib argv1 env1 w = runScriptProcess lib argv2 env2 w :=
  rfl

/-- C5: frame condition on persisted state: the final world of a run is
exactly the world effect of the two library calls, and the content of any
file that both library routines preserve is preserved by the whole run —
the script writes no files and persists no state of its own. -/
theorem runScript_frame {Model Err Artifact : Type}
    (lib : UltralyticsLib Model Err Artifact FS) (w : FS) (name : String)
    (hload : ∀ f w',
      FS.lookupFile (lib.load f w').2 name = FS.lookupFile w' name)
    (hexp : ∀ m s w',
      FS.lookupFile (lib.exportModel m s w').2 name = FS.lookupFile w' name) :
    (runScript lib w).finalWorld = libWorldEffect lib w ∧
    FS.lookupFile (runScript lib w).finalWorld name =
      FS.lookupFile w name := by
  cases h1 : lib.load checkpointFile w with
  | mk r1 w1 =>
    have hl1 : FS.lookupFile w1 name = FS.lookupFile w name := by
      have h := hload checkpointFile w
      rw [h1] at h
      exact h
    cases r1 with
    | error e =>
      rw [runScript_of_load_error lib w h1]
      exact ⟨by simp [libWorldEffect, h1], hl1⟩
    | ok m =>
      rw [runScript_of_load_ok lib w h1]
      cases h2 : lib.exportModel m exportFormat w1 with
      | mk r2 w2 =>
        have hl2 : FS.lookupFile w2 name = FS.lookupFile w1 name := by
          have h := hexp m exportFormat w1
          rw [h2] at h
          exact h
        cases r2 with
        | error e =>
          rw [runExportStatement_of_error lib m w1 h2]
          exact ⟨by simp [libWorldEffect, h1, h2], hl2.trans hl1⟩
        | ok a =>
          rw [runExportStatement_of_ok lib m w1 h2]
          exact ⟨by simp [libWorldEffect, h1, h2], hl2.trans hl1⟩

/-- C5 witness: with a concrete library whose routines leave the
filesystem unchanged, a run from a filesystem holding `keep.txt` preserves
that file's content, and the final world is the library calls' effect. -/
theorem runScript_frame_witness :
    (runScript witLibPure [("keep.txt", [3])]).finalWorld =
      libWorldEffect witLibPure [("keep.txt", [3])] ∧
    FS.lookupFile (runScript witLibPure [("keep.txt", [3])]).finalWorld
        "keep.txt" =
      FS.lookupFile [("keep.txt", [3])] "keep.txt" :=
  runScript_frame witLibPure [("keep.txt", [3])] "keep.txt"
    (fun _ _ => rfl) (fun _ _ _ => rfl)

/-- C6: the script validates nothing of its own: in every world — also one
in which the checkpoint file is absent — the first action of every run is
the load call on the hardcoded filename, with no prior existence or format
check, and whenever load returns a model the export call on that model with
the hardcoded format follows unconditionally. -/
theorem runScript_no_validation {Model Err Artifact World : Type}
    (lib : UltralyticsLib Model Err Artifact World) (w : World) :
    (runScript lib w).trace.head? = some (Event.loadCall checkpointFile) ∧
    ∀ m w1, lib.load checkpointFile w = (.ok m, w1) →
      (runScript lib w).trace =
        [Event.loadCall checkpointFile,
         Event.exportCall m exportFormat] := by
  constructor
  · cases h1 : lib.load checkpointFile w with
    | mk r1 w1 =>
      cases r1 with
      | error e =>
        rw [runScript_of_load_error lib w h1]
        rfl
      | ok m =>
        rw [runScript_of_load_ok lib w h1]
        cases h2 : lib.exportModel m exportFormat w1 with
        | mk r2 w2 =>
          cases r2 with
          | error e =>
            rw [runExportStatement_of_error lib m w1 h2]
            rfl
          | ok a =>
            rw [runExportStatement_of_ok lib m w1 h2]
            rfl
  · intro m w1 h1
    rw [runScript_of_load_ok lib w h1]
    cases h2 : lib.exportModel m exportFormat w1 with
    | mk r2 w2 =>
      cases r2 with
      | error e => rw [runExportStatement_of_error lib m w1 h2]
      | ok a => rw [runExportStatement_of_ok lib m w1 h2]

/-- C6 witness: with a concrete library whose load call returns model 1,
the run's first action is the load call on the hardcoded filename and the
export call on model 1 with the hardcoded format follows. -/
theorem runScript_no_validation_witness :
    (runScript witLib 0).trace.head? =
      some (Event.loadCall checkpointFile) ∧
    (runScript witLib 0).trace =
      [Event.loadCall checkpointFile, Event.exportCall 1 exportFormat] :=
  ⟨(runScript_no_validation witLib 0).1,
   (runScript_no_validation witLib 0).2 1 0 rfl⟩

/-- C7: the script is single-threaded and synchronous: every run is one
sequential trace of library calls — either the load call alone, or the
load call followed by a single export call on the loaded model — with no
other operations, no interleaving and no concurrency of the script's own
design. -/
theorem runScript_sequential {Model Err Artifact World : Type}
    (lib : UltralyticsLib Model Err Artifact World) (w : World) :
    (runScript lib w).trace = [Event.loadCall checkpointFile] ∨
    ∃ m, (runScript lib w).trace =
      [Event.loadCall checkpointFile,
       Event.exportCall m exportFormat] := by
  cases h1 : lib.load checkpointFile w with
  | mk r1 w1 =>
    cases r1 with
    | error e =>
      rw [runScript_of_load_error lib w h1]
      exact Or.inl rfl
    | ok m =>
      rw [runScript_of_load_ok lib w h1]
      cases h2 : lib.exportModel m exportFormat w1 with
      | mk r2 w2 =>
        cases r2 with
        | error e =>
          rw [runExportStatement_of_error lib m w1 h2]
          exact Or.inr ⟨m, rfl⟩
        | ok a =>
          rw [runExportStatement_of_ok lib m w1 h2]
          exact Or.inr ⟨m, rfl⟩

/-- C8: the two hardcoded literals are exactly "yolo26n.pt" (the filename
passed to the load constructor) and "onnx" (the value of the single format
argument of the export call), and every library call any run performs
carries exactly these literals as its string arguments — no other
arguments or options are supplied. -/
theorem script_call_arguments :
    checkpointFile = "yolo26n.pt" ∧ exportFormat = "onnx" ∧
    ∀ (Model Err Artifact World : Type)
      (lib : UltralyticsLib Model Err Artifact World) (w : World),
      ((runScript lib w).trace.all fun ev =>
        match ev with
        | .loadCall f => f == "yolo26n.pt"
        | .exportCall _ s => s == "onnx") = true := by
  refine ⟨rfl, rfl, ?_⟩
  intro Model Err Artifact World lib w
  cases h1 : lib.load checkpointFile w with
  | mk r1 w1 =>
    cases r1 with
    | error e =>
      rw [runScript_of_load_error lib w h1]
      rfl
    | ok m =>
      rw [runScript_of_load_ok lib w h1]
      cases h2 : lib.exportModel m exportFormat w1 with
      | mk r2 w2 =>
        cases r2 with
        | error e =>
          rw [runExportStatement_of_error lib m w1 h2]
          rfl
        | ok a =>
          rw [runExportStatement_of_ok lib m w1 h2]
          rfl

/-- C9: the value returned by the export call is discarded: replacing it
by an arbitrary function of itself changes nothing about the run, and the
script prints nothing, so a run is observable only through the final world,
the call trace and the terminating outcome. -/
theorem runScript_export_value_discarded
    {Model Err Artifact Artifact2 World : Type} (f : Artifact → Artifact2)
    (lib : UltralyticsLib Model Err Artifact World) (w : World) :
    runScript (mapArtifact f lib) w = runScript lib w ∧
    (runScript lib w).stdout = [] := by
  constructor
  · cases h1 : lib.load checkpointFile w with
    | mk r1 w1 =>
      cases r1 with
      | error e =>
        rw [runScript_of_load_error lib w h1,
            runScript_of_load_error (mapArtifact f lib) w h1]
      | ok m =>
        rw [runScript_of_load_ok lib w h1,
            runScript_of_load_ok (mapArtifact f lib) w h1]
        cases h2 : lib.exportModel m exportFormat w1 with
        | mk r2 w2 =>
          cases r2 with
          | error e =>
            have h2f : (mapArtifact f lib).exportModel m exportFormat w1 =
                (.error e, w2) := by
              simp [mapArtifact, h2]
            rw [runExportStatement_of_error lib m w1 h2,
                runExportStatement_of_error (mapArtifact f lib) m w1 h2f]
          | ok a =>
            have h2f : (mapArtifact f lib).exportModel m exportFormat w1 =
                (.ok (f a), w2) := by
              simp [mapArtifact, h2]
            rw [runExportStatement_of_ok lib m w1 h2,
                runExportStatement_of_ok (mapArtifact f lib) m w1 h2f]
  · cases h1 : lib.load checkpointFile w with
    | mk r1 w1 =>
      cases r1 with
      | error e => rw [runScript_of_load_error lib w h1]
      | ok m =>
        rw [runScript_of_load_ok lib w h1]
        cases h2 : lib.exportModel m exportFormat w1 with
        | mk r2 w2 =>
          cases r2 with
          | error e => rw [runExportStatement_of_error lib m w1 h2]
          | ok a => rw [runExportStatement_of_ok lib m w1 h2]

/-- C10: with the library's routines modelled as fixed functions, the
script is deterministic: it reads no random source and no clock, so any two
runs perform identical call sequences with identical arguments and yield
identical results. -/
theorem runScriptAmbient_deterministic {Model Err Artifact World : Type}
    (lib : UltralyticsLib Model Err Artifact World)
    (seed1 time1 seed2 time2 : Nat) (w : World) :
    runScriptAmbient lib seed1 time1 w = runScriptAmbient lib seed2 time2 w :=
  rfl

end Captcha
